import Mathlib

/-!
Shallow embedding of the absfs package (Go): the default-method synthesizer
that upgrades a minimal `Filer` into a full `FileSystem`, plus the
`InvalidFile` placeholder and the `seekbuffer` capability-upgrade adapter.

Modelling conventions:
- machine integers are `Nat`/`Int`;
- Go `error` values are the inductive `GoErr` (with `pathError` mirroring
  `os.PathError`);
- the host platform is the Unix (Linux) build of the package: the path
  separator is the forward slash, `filepath.IsAbs` tests for a leading
  slash, and the `os` open-flag constants take their linux/amd64 values;
- Go standard-library path functions (`filepath.Clean`, `filepath.Join`,
  `filepath.Base`, `strings.Split`) are re-implemented structurally on
  `List Char` so that every definition evaluates inside the kernel;
- the backing `Filer` is modelled generically as a record of operations over
  an abstract state (the `Filer` structure), and concretely by the
  repository's own in-memory `mockFiler`, which additionally carries a
  ghost count of currently open handles so that handle-lifecycle facts are
  observable.
-/

namespace Absfs

/-- GoErr models Go error values used by this package: sentinel errors from
the `os` and `io` packages, `errors.New` messages, `os.PathError` records
(operation, path, underlying cause), and an out-of-fuel marker standing for
nontermination of an unbounded Go loop. -/
inductive GoErr where
  | notExist
  | exist
  | invalidArg
  | permission
  | eof
  | ebadf
  | fuelOut
  | msg (s : String)
  | pathError (op : String) (path : String) (cause : GoErr)
deriving DecidableEq, Repr

/-- splitOnCharAux accumulates the current field (reversed) while scanning;
it realizes Go `strings.Split` with a one-character separator. -/
def splitOnCharAux (sep : Char) : List Char → List Char → List (List Char)
  | [], acc => [acc.reverse]
  | c :: rest, acc =>
    if c = sep then acc.reverse :: splitOnCharAux sep rest []
    else splitOnCharAux sep rest (c :: acc)

/-- splitOnChar is Go `strings.Split s (String.singleton sep)`: the fields of
`s` around each occurrence of `sep` (the empty string yields one empty
field). -/
def splitOnChar (sep : Char) (s : List Char) : List (List Char) :=
  splitOnCharAux sep s []

/-- joinSep interleaves a separator between the given fields, realizing Go
`strings.Join` with a one-character separator. -/
def joinSep (sep : Char) : List (List Char) → List Char
  | [] => []
  | [x] => x
  | x :: rest => x ++ sep :: joinSep sep rest

/-- filepathIsAbs is Go `filepath.IsAbs` on the Unix build: a path is
absolute iff it begins with a forward slash. -/
def filepathIsAbs (path : String) : Bool :=
  match path.data with
  | c :: _ => c = '/'
  | [] => false

/-- isVirtualAbs (part_001 lines 245-254): absolute per `filepath.IsAbs`, or
non-empty and beginning with a forward slash or a backslash. -/
def isVirtualAbs (path : String) : Bool :=
  filepathIsAbs path ||
    (match path.data with
     | c :: _ => c = '/' || c = '\\'
     | [] => false)

/-- cleanStep processes one path element of Go `filepath.Clean` (Unix build)
against the stack of kept elements (most recent first): empty and dot
elements are dropped, dot-dot pops a kept non-dot-dot element (and vanishes
at the root of a rooted path), and any other element is kept. -/
def cleanStep (rooted : Bool) (stack : List (List Char)) (p : List Char) :
    List (List Char) :=
  if p = [] || p = ['.'] then stack
  else if p = ['.', '.'] then
    match stack with
    | [] => if rooted then [] else [['.', '.']]
    | a :: rest => if a = ['.', '.'] then p :: stack else rest
  else p :: stack

/-- cleanParts folds `cleanStep` over the path elements and restores their
left-to-right order. -/
def cleanParts (rooted : Bool) (parts : List (List Char)) : List (List Char) :=
  (parts.foldl (cleanStep rooted) []).reverse

/-- filepathClean is Go `filepath.Clean` on the Unix build: shortest lexical
equivalent of the path, collapsing repeated separators, eliminating dot
elements, eliminating inner dot-dot elements together with the preceding
element, and eliminating dot-dot elements at the root of a rooted path;
the empty path cleans to a single dot. -/
def filepathClean (path : String) : String :=
  if path.data = [] then "."
  else
    let rooted := filepathIsAbs path
    let parts := cleanParts rooted (splitOnChar '/' path.data)
    if rooted then String.mk ('/' :: joinSep '/' parts)
    else if parts.isEmpty then "."
    else String.mk (joinSep '/' parts)

/-- filepathJoin is Go `filepath.Join` on the Unix build restricted to two
elements (the only arity the package uses): non-empty elements are joined
with a slash and the result is cleaned; if every element is empty the
result is the empty string. -/
def filepathJoin (a b : String) : String :=
  if a = "" && b = "" then ""
  else if a = "" then filepathClean b
  else if b = "" then filepathClean a
  else filepathClean (a ++ "/" ++ b)

/-- filepathBase is Go `filepath.Base` on the Unix build: the last element of
the path after dropping trailing slashes; a path of only slashes has base
"/" and the empty path has base ".". -/
def filepathBase (path : String) : String :=
  if path.data = [] then "."
  else
    match ((splitOnChar '/' path.data).filter (fun p => p ≠ [])).getLast? with
    | some b => String.mk b
    | none => "/"

/-- O_RDONLY on linux/amd64. -/
def O_RDONLY : Nat := 0
/-- O_WRONLY on linux/amd64. -/
def O_WRONLY : Nat := 1
/-- O_RDWR on linux/amd64. -/
def O_RDWR : Nat := 2
/-- O_CREATE (os.O_CREATE) on linux/amd64. -/
def O_CREATE : Nat := 64
/-- O_EXCL on linux/amd64. -/
def O_EXCL : Nat := 128
/-- O_TRUNC on linux/amd64. -/
def O_TRUNC : Nat := 512
/-- O_APPEND on linux/amd64. -/
def O_APPEND : Nat := 1024

example : filepathClean "/a//b" = "/a/b" := by decide
example : filepathClean "/a/./b" = "/a/b" := by decide
example : filepathClean "/a/../b" = "/b" := by decide
example : filepathClean "a/.." = "." := by decide
example : filepathClean "/.." = "/" := by decide
example : filepathClean "../a" = "../a" := by decide
example : filepathClean "sub" = "sub" := by decide
example : filepathClean "/" = "/" := by decide
example : filepathClean "a/" = "a" := by decide
example : filepathClean "" = "." := by decide
example : filepathJoin "/" "sub" = "/sub" := by decide
example : filepathJoin "/home/user" "test.txt" = "/home/user/test.txt" := by decide
example : filepathBase "/a/b/" = "b" := by decide
example : filepathBase "/" = "/" := by decide
example : isVirtualAbs "\\win" = true := by decide
example : isVirtualAbs "rel/p" = false := by decide
example : isVirtualAbs "/x" = true := by decide

/-- FInfo models the `os.FileInfo` snapshot produced by a stat call: base
name, size in bytes, mode bits and the directory flag. -/
structure FInfo where
  name : String
  size : Int
  mode : Nat
  isDir : Bool
deriving DecidableEq, Repr

/-- Filer models the minimal Go `Filer` interface, restricted to the
operations the synthesized methods actually invoke (`OpenFile`, `Mkdir`,
`Remove`, `Stat`), together with the methods of the `File` handles that
`OpenFile` returns (`Stat`, `Close`, `Readdirnames`). The backend state has
abstract type `σ`; a handle is identified by the key string the backend
chose for it. `Rename`, `Chmod`, `Chtimes` and `Chown` are never used by
the synthesized fallbacks and are omitted. -/
structure Filer (σ : Type) where
  OpenFile : σ → String → Nat → Nat → σ × Except GoErr String
  Mkdir : σ → String → Nat → σ × Option GoErr
  Remove : σ → String → σ × Option GoErr
  Stat : σ → String → Except GoErr FInfo
  FStat : σ → String → Except GoErr FInfo
  FClose : σ → String → σ × Option GoErr
  FReaddirnames : σ → String → Nat → σ × (List String × Option GoErr)

/-- DirNav models the `dirnavigator` optional interface: a paired native
`Chdir` and `Getwd`. -/
structure DirNav (σ : Type) where
  Chdir : σ → String → σ × Option GoErr
  Getwd : σ → σ × (String × Option GoErr)

/-- Natives records which optional native methods the wrapped backend
implements; each `some` field corresponds to the backend satisfying the
matching probe interface (`opener`, `creator`, `mkaller`, `remover`,
`truncater`, `dirnavigator`, `separator`, `listseparator`, `temper`). -/
structure Natives (σ : Type) where
  Open : Option (σ → String → σ × Except GoErr String)
  Create : Option (σ → String → σ × Except GoErr String)
  MkdirAll : Option (σ → String → Nat → σ × Option GoErr)
  RemoveAll : Option (σ → String → σ × Option GoErr)
  Truncate : Option (σ → String → Int → σ × Option GoErr)
  dirnav : Option (DirNav σ)
  Separator : Option (σ → Nat)
  ListSeparator : Option (σ → Nat)
  TempDir : Option (σ → String)

/-- FS models the `fs` struct produced by `ExtendFiler`: the tracked working
directory plus the wrapped filer (its operations, optional natives and
current state). -/
structure FS (σ : Type) where
  cwd : String
  filer : Filer σ
  natives : Natives σ
  st : σ

/-- ExtendFiler (part_001 lines 233-235): wraps a filer, initializing the
working directory to the separator string. -/
def ExtendFiler {σ : Type} (filer : Filer σ) (natives : Natives σ) (st : σ) :
    FS σ :=
  ⟨"/", filer, natives, st⟩

/-- resolvePath is the path-resolution step inlined at the top of every
synthesized operation: a virtually absolute name passes through unchanged;
otherwise, when the backend is not a `dirnavigator`, the name is joined onto
the working directory and cleaned. -/
def resolvePath (hasDirnav : Bool) (cwd name : String) : String :=
  if isVirtualAbs name then name
  else if hasDirnav then name
  else filepathClean (filepathJoin cwd name)

/-- resolve applies `resolvePath` with this wrapper's dirnavigator
capability and working directory. -/
def FS.resolve {σ : Type} (fs : FS σ) (name : String) : String :=
  resolvePath fs.natives.dirnav.isSome fs.cwd name

/-- OpenFile (part_001 lines 256-263): resolve the name, delegate to the
filer. -/
def FS.OpenFile {σ : Type} (fs : FS σ) (name : String) (flag perm : Nat) :
    FS σ × Except GoErr String :=
  let p := fs.filer.OpenFile fs.st (fs.resolve name) flag perm
  ({fs with st := p.1}, p.2)

/-- Mkdir (part_001 lines 265-272): resolve the name, delegate to the
filer. -/
def FS.Mkdir {σ : Type} (fs : FS σ) (name : String) (perm : Nat) :
    FS σ × Option GoErr :=
  let p := fs.filer.Mkdir fs.st (fs.resolve name) perm
  ({fs with st := p.1}, p.2)

/-- Remove (part_001 lines 274-281): resolve the name, delegate to the
filer. -/
def FS.Remove {σ : Type} (fs : FS σ) (name : String) : FS σ × Option GoErr :=
  let p := fs.filer.Remove fs.st (fs.resolve name)
  ({fs with st := p.1}, p.2)

/-- Stat (part_001 lines 298-305): resolve the name, delegate to the filer
(the modelled backends do not mutate state on stat). -/
def FS.Stat {σ : Type} (fs : FS σ) (name : String) : Except GoErr FInfo :=
  fs.filer.Stat fs.st (fs.resolve name)

/-- Separator (part_001 lines 335-340): the native method when present,
otherwise the platform separator (47, the forward slash). -/
def FS.Separator {σ : Type} (fs : FS σ) : Nat :=
  match fs.natives.Separator with
  | some f => f fs.st
  | none => 47

/-- ListSeparator (part_001 lines 342-347): the native method when present,
otherwise the platform list separator (58, the colon). -/
def FS.ListSeparator {σ : Type} (fs : FS σ) : Nat :=
  match fs.natives.ListSeparator with
  | some f => f fs.st
  | none => 58

/-- TempDir (part_001 lines 377-383): the native method when present,
otherwise `os.TempDir`, modelled as its linux default "/tmp". -/
def FS.TempDir {σ : Type} (fs : FS σ) : String :=
  match fs.natives.TempDir with
  | some f => f fs.st
  | none => "/tmp"

/-- Getwd (part_001 lines 370-375): the native method when present,
otherwise the tracked working directory with a nil error. -/
def FS.Getwd {σ : Type} (fs : FS σ) : FS σ × (String × Option GoErr) :=
  match fs.natives.dirnav with
  | some nav =>
    let p := nav.Getwd fs.st
    ({fs with st := p.1}, p.2)
  | none => (fs, (fs.cwd, none))

/-- Open (part_001 lines 385-395): the native method when present, otherwise
resolve the name and delegate to `OpenFile` with the read-only flag and zero
mode. -/
def FS.Open {σ : Type} (fs : FS σ) (name : String) :
    FS σ × Except GoErr String :=
  match fs.natives.Open with
  | some f =>
    let p := f fs.st name
    ({fs with st := p.1}, p.2)
  | none =>
    let p := fs.filer.OpenFile fs.st (fs.resolve name) O_RDONLY 0
    ({fs with st := p.1}, p.2)

/-- Create (part_001 lines 397-407): the native method when present,
otherwise resolve the name and delegate to `OpenFile` with
create+read-write+truncate flags and mode 0666. -/
def FS.Create {σ : Type} (fs : FS σ) (name : String) :
    FS σ × Except GoErr String :=
  match fs.natives.Create with
  | some f =>
    let p := f fs.st name
    ({fs with st := p.1}, p.2)
  | none =>
    let p := fs.filer.OpenFile fs.st (fs.resolve name)
      (O_CREATE ||| O_RDWR ||| O_TRUNC) 438
    ({fs with st := p.1}, p.2)

/-- Chdir (part_001 lines 349-368): the native method when present;
otherwise open the target, stat the handle, fail with a "not a directory"
path error if the stat reports a non-directory, and on success commit the
cleaned argument as the working directory. The deferred handle close always
runs before returning (its error is discarded), except when the open itself
failed. -/
def FS.Chdir {σ : Type} (fs : FS σ) (dir : String) : FS σ × Option GoErr :=
  match fs.natives.dirnav with
  | some nav =>
    let p := nav.Chdir fs.st dir
    ({fs with st := p.1}, p.2)
  | none =>
    match FS.Open fs dir with
    | (fs1, Except.error e) => (fs1, some e)
    | (fs1, Except.ok f) =>
      match fs1.filer.FStat fs1.st f with
      | Except.error e =>
        let c := fs1.filer.FClose fs1.st f
        ({fs1 with st := c.1}, some e)
      | Except.ok info =>
        if !info.isDir then
          let c := fs1.filer.FClose fs1.st f
          ({fs1 with st := c.1},
            some (GoErr.pathError "chdir" dir (GoErr.msg "not a directory")))
        else
          let c := fs1.filer.FClose fs1.st f
          ({fs1 with cwd := filepathClean dir, st := c.1}, none)

/-- Truncate (part_001 lines 510-525): the native method when present;
otherwise resolve the name, open it with write+truncate flags and mode 0666,
and return the close result of that handle. The size argument is not used
by the fallback. -/
def FS.Truncate {σ : Type} (fs : FS σ) (name : String) (size : Int) :
    FS σ × Option GoErr :=
  match fs.natives.Truncate with
  | some f =>
    let p := f fs.st name size
    ({fs with st := p.1}, p.2)
  | none =>
    match fs.filer.OpenFile fs.st (fs.resolve name) (O_WRONLY ||| O_TRUNC) 438 with
    | (s, Except.error e) => ({fs with st := s}, some e)
    | (s, Except.ok f) =>
      let c := fs.filer.FClose s f
      ({fs with st := c.1}, c.2)

/-- MkdirAll (part_001 lines 409-436): the native method when present;
otherwise resolve and clean the name, then walk its components split on the
backend separator, joining each non-empty component onto a running prefix
and calling `Mkdir` on every prefix other than the platform root — with the
per-component error discarded. The fallback always returns nil. -/
def FS.MkdirAll {σ : Type} (fs : FS σ) (name : String) (perm : Nat) :
    FS σ × Option GoErr :=
  match fs.natives.MkdirAll with
  | some f =>
    let p := f fs.st name perm
    ({fs with st := p.1}, p.2)
  | none =>
    let name1 := filepathClean (fs.resolve name)
    let sep := Char.ofNat (FS.Separator fs)
    let out := (splitOnChar sep name1.data).foldl
      (fun (acc : FS σ × String) p =>
        if p = [] then acc
        else
          let path := filepathJoin acc.2 (String.mk p)
          if path = "/" then (acc.1, path)
          else ((FS.Mkdir acc.1 path perm).1, path))
      (fs, String.mk [sep])
    (out.1, none)

/-- rmNames is the inner for-loop of `removeAll` over one batch of directory
entry names: the self and parent pseudo-entries are skipped, every other
name is removed recursively (via the supplied recursive call) on the joined
child path, and the first error aborts the batch. -/
def rmNames {σ : Type} (rm : FS σ → String → FS σ × Option GoErr)
    (path : String) : FS σ → List String → FS σ × Option GoErr
  | fs, [] => (fs, none)
  | fs, n :: rest =>
    if n = "." || n = ".." then rmNames rm path fs rest
    else
      match rm fs (filepathJoin path n) with
      | (fs1, some e) => (fs1, some e)
      | (fs1, none) => rmNames rm path fs1 rest

/-- rmLoop is the unbounded enumeration loop of `removeAll`: read a batch of
up to 512 names from the directory handle, process it with `rmNames`, then
break on end-of-file, propagate any other enumeration error, or iterate.
The Go loop has no bound, so it is modelled with fuel; exhausted fuel stands
for divergence. -/
def rmLoop {σ : Type} (rm : FS σ → String → FS σ × Option GoErr)
    (path f : String) : Nat → FS σ → FS σ × Option GoErr
  | 0, fs => (fs, some GoErr.fuelOut)
  | Nat.succ k, fs =>
    let p := fs.filer.FReaddirnames fs.st f 512
    let fs1 : FS σ := {fs with st := p.1}
    match rmNames rm path fs1 p.2.1 with
    | (fs2, some e) => (fs2, some e)
    | (fs2, none) =>
      if p.2.2 = some GoErr.eof then (fs2, none)
      else
        match p.2.2 with
        | some e => (fs2, some e)
        | none => rmLoop rm path f k fs2

/-- removeAllF (part_001 lines 438-495): open the path; stat and close the
handle; if the stat reports a non-directory, delegate to the resolving
`Remove`. For a directory, reopen it, enumerate and recursively remove its
entries in batches, close the handle (merging the close error under
first-error-wins), remove the directory itself through the raw filer, and
return; the deferred close of the reopened handle runs on every one of its
exit paths with its error discarded. Fuel bounds the recursion and the
enumeration loop, which the Go code leaves unbounded. -/
def removeAllF {σ : Type} : Nat → FS σ → String → FS σ × Option GoErr
  | 0, fs, _ => (fs, some GoErr.fuelOut)
  | Nat.succ fuel, fs, path =>
    match FS.Open fs path with
    | (fs1, Except.error e) => (fs1, some e)
    | (fs1, Except.ok f) =>
      let infoRes := fs1.filer.FStat fs1.st f
      let c0 := fs1.filer.FClose fs1.st f
      let fs2 : FS σ := {fs1 with st := c0.1}
      match infoRes with
      | Except.error e => (fs2, some e)
      | Except.ok info =>
        if !info.isDir then FS.Remove fs2 path
        else
          match FS.Open fs2 path with
          | (fs3, Except.error e) => (fs3, some e)
          | (fs3, Except.ok f2) =>
            match rmLoop (removeAllF fuel) path f2 fuel fs3 with
            | (fs4, some e) =>
              let c := fs4.filer.FClose fs4.st f2
              ({fs4 with st := c.1}, some e)
            | (fs4, none) =>
              let c1 := fs4.filer.FClose fs4.st f2
              let closeErr := if c1.2.isSome && c0.2 = none then c1.2 else c0.2
              let fs5 : FS σ := {fs4 with st := c1.1}
              let r := fs5.filer.Remove fs5.st path
              let fs6 : FS σ := {fs5 with st := r.1}
              match r.2 with
              | some e =>
                let c2 := fs6.filer.FClose fs6.st f2
                ({fs6 with st := c2.1}, some e)
              | none =>
                let c2 := fs6.filer.FClose fs6.st f2
                ({fs6 with st := c2.1}, closeErr)

/-- RemoveAllFuel (part_001 lines 497-508): the native method when present;
otherwise resolve the name and run the recursive `removeAllF` on it, with
the given fuel bounding the depth of the otherwise-unbounded Go
recursion. -/
def FS.RemoveAllFuel {σ : Type} (fuel : Nat) (fs : FS σ) (name : String) :
    FS σ × Option GoErr :=
  match fs.natives.RemoveAll with
  | some f =>
    let p := f fs.st name
    ({fs with st := p.1}, p.2)
  | none => removeAllF fuel fs (fs.resolve name)

/-- MockFile models the test backend's `mockFile` record (part_000 lines
121-129); directory entries are modelled by the names the mock's
`Readdirnames` would produce from them. -/
structure MockFile where
  name : String
  mode : Nat
  isDir : Bool
  content : List Nat
  entries : List String
deriving DecidableEq, Repr

/-- MockFiler models the test backend's `mockFiler` (part_000 lines 12-21):
a flat map from cleaned path to file, modelled as an association list,
extended with a ghost count of successfully opened and not yet closed
handles (not present in the Go struct, whose handle lifecycle lives in the
runtime). -/
structure MockFiler where
  files : List (String × MockFile)
  openCount : Nat
deriving DecidableEq, Repr

/-- mapLookup is Go map indexing on the association-list model (keys are
kept unique by `mapInsert`/`mapErase`). -/
def mapLookup : List (String × MockFile) → String → Option MockFile
  | [], _ => none
  | kv :: rest, k => if kv.1 = k then some kv.2 else mapLookup rest k

/-- mapInsert is Go map assignment: replace the binding when the key is
present, otherwise add it. -/
def mapInsert : List (String × MockFile) → String → MockFile →
    List (String × MockFile)
  | [], k, v => [(k, v)]
  | kv :: rest, k, v =>
    if kv.1 = k then (k, v) :: rest else kv :: mapInsert rest k v

/-- mapErase is Go map deletion. -/
def mapErase : List (String × MockFile) → String → List (String × MockFile)
  | [], _ => []
  | kv :: rest, k =>
    if kv.1 = k then mapErase rest k else kv :: mapErase rest k

/-- mockInfo is the `os.FileInfo` view of a mock file (part_000 lines
131-136): base of the stored name, content length as size, mode and
directory flag. -/
def mockInfo (f : MockFile) : FInfo :=
  ⟨filepathBase f.name, Int.ofNat f.content.length, f.mode, f.isDir⟩

/-- mockOpenFile (part_000 lines 23-46): clean the name; under O_CREATE
insert an empty file if absent; fail with a not-exist path error when the
name is still absent; under O_TRUNC empty the content; return a handle to
the file (modelled by its cleaned key, bumping the ghost open count). -/
def mockOpenFile (m : MockFiler) (name0 : String) (flag : Nat) (perm : Nat) :
    MockFiler × Except GoErr String :=
  let name := filepathClean name0
  let m1 :=
    if flag &&& O_CREATE ≠ 0 && (mapLookup m.files name).isNone then
      {m with files := mapInsert m.files name ⟨name, perm, false, [], []⟩}
    else m
  match mapLookup m1.files name with
  | none => (m1, Except.error (GoErr.pathError "open" name GoErr.notExist))
  | some f =>
    let m2 :=
      if flag &&& O_TRUNC ≠ 0 then
        {m1 with files := mapInsert m1.files name {f with content := []}}
      else m1
    ({m2 with openCount := m2.openCount + 1}, Except.ok name)

/-- mockMkdir (part_000 lines 48-60): clean the name; fail with an exist
path error when present; otherwise insert a directory entry whose mode has
the ModeDir bit set. -/
def mockMkdir (m : MockFiler) (name0 : String) (perm : Nat) :
    MockFiler × Option GoErr :=
  let name := filepathClean name0
  match mapLookup m.files name with
  | some _ => (m, some (GoErr.pathError "mkdir" name GoErr.exist))
  | none =>
    let d : MockFile := ⟨name, 2147483648 ||| perm, true, [], []⟩
    ({m with files := mapInsert m.files name d}, none)

/-- mockRemove (part_000 lines 62-69): clean the name; fail with a not-exist
path error when absent; otherwise delete the binding. -/
def mockRemove (m : MockFiler) (name0 : String) : MockFiler × Option GoErr :=
  let name := filepathClean name0
  match mapLookup m.files name with
  | none => (m, some (GoErr.pathError "remove" name GoErr.notExist))
  | some _ => ({m with files := mapErase m.files name}, none)

/-- mockStat (part_000 lines 84-91): clean the name; not-exist path error
when absent, otherwise the file info. -/
def mockStat (m : MockFiler) (name0 : String) : Except GoErr FInfo :=
  let name := filepathClean name0
  match mapLookup m.files name with
  | none => Except.error (GoErr.pathError "stat" name GoErr.notExist)
  | some f => Except.ok (mockInfo f)

/-- mockFStat is the handle `Stat` (part_000 lines 182-184): the info of the
file the handle points at. A Go handle holds a pointer and never fails; the
key-indexed model can only fail on a dangling handle, which no modelled
scenario creates. -/
def mockFStat (m : MockFiler) (k : String) : Except GoErr FInfo :=
  match mapLookup m.files k with
  | none => Except.error (GoErr.pathError "stat" k GoErr.notExist)
  | some f => Except.ok (mockInfo f)

/-- mockFClose is the handle `Close` (part_000 line 179): a no-op returning
nil; the model decrements the ghost open count. -/
def mockFClose (m : MockFiler) (_k : String) : MockFiler × Option GoErr :=
  ({m with openCount := m.openCount - 1}, none)

/-- mockFReaddirnames is the handle `Readdirnames` (part_000 lines 264-272):
an error for a non-directory, otherwise all entry names with a nil error
(the mock never signals end-of-file). -/
def mockFReaddirnames (m : MockFiler) (k : String) (_n : Nat) :
    MockFiler × (List String × Option GoErr) :=
  match mapLookup m.files k with
  | none => (m, ([], some (GoErr.msg "not a directory")))
  | some f =>
    if f.isDir then (m, (f.entries, none))
    else (m, ([], some (GoErr.msg "not a directory")))

/-- mockFilerOps packages the mock backend as a `Filer`. -/
def mockFilerOps : Filer MockFiler :=
  ⟨mockOpenFile, mockMkdir, mockRemove, mockStat, mockFStat, mockFClose,
    mockFReaddirnames⟩

/-- noNatives is the capability record of `mockFiler`, which implements none
of the optional interfaces. -/
def noNatives : Natives MockFiler :=
  ⟨none, none, none, none, none, none, none, none, none⟩

/-- mockFS is the wrapper over the mock backend with an arbitrary tracked
working directory (`mockFS "/" m` is `ExtendFiler` applied to the mock). -/
def mockFS (cwd : String) (m : MockFiler) : FS MockFiler :=
  ⟨cwd, mockFilerOps, noNatives, m⟩

example :
    (mockFS "/" ⟨[("/x", ⟨"/x", 438, false, [1, 2, 3], []⟩)], 0⟩).Stat "/x"
      = Except.ok ⟨"x", 3, 438, false⟩ := by rfl

/-- UnSeekSrc models an `UnSeekable` source handle by its drain contract:
reading it to end-of-file yields `avail`; when `readErr` is set, draining it
instead fails with that error (this is the `ioutil.ReadAll` boundary, which
is standard-library code outside this repository). -/
structure UnSeekSrc where
  name : String
  avail : List Nat
  readErr : Option GoErr
deriving DecidableEq, Repr

/-- readAll is the contract of `ioutil.ReadAll` on an `UnSeekSrc`: the
drained bytes, or the source's read error. -/
def readAll (u : UnSeekSrc) : List Nat × Option GoErr :=
  match u.readErr with
  | some e => (u.avail, some e)
  | none => (u.avail, none)

/-- Seekbuffer models the `seekbuffer` struct (file.go lines 170-174): the
in-memory data, the current read/write offset, and the wrapped source. -/
structure Seekbuffer where
  data : List Nat
  offset : Int
  uf : UnSeekSrc
deriving DecidableEq, Repr

/-- ExtendUnseekable (file.go lines 99-110): eagerly drain the source; a
read failure aborts construction with no buffer and the error; otherwise
the buffer holds the drained bytes with offset zero. -/
def ExtendUnseekable (uf : UnSeekSrc) : Option Seekbuffer × Option GoErr :=
  match readAll uf with
  | (_, some e) => (none, some e)
  | (data, none) => (some ⟨data, 0, uf⟩, none)

/-- listZeros is Go `make([]byte, n)`: n zero bytes. -/
def listZeros (n : Nat) : List Nat :=
  List.replicate n 0

/-- goCopy is Go `copy(dst, src)` viewed as the resulting destination
contents: the first `min |src| |dst|` bytes come from `src`, the rest of
`dst` is unchanged. -/
def goCopy (dst src : List Nat) : List Nat :=
  src.take dst.length ++ dst.drop (min src.length dst.length)

/-- Seekbuffer.Write (file.go lines 189-197): when the write would extend
past the buffer, reallocate a zeroed buffer of length offset plus the write
length and copy the old data in; then copy `p` into the buffer at the
current offset, returning the number of bytes copied. The offset field is
not modified. -/
def Seekbuffer.Write (sb : Seekbuffer) (p : List Nat) :
    Seekbuffer × (Nat × Option GoErr) :=
  let sb1 :=
    if (p.length : Int) + sb.offset > (sb.data.length : Int) then
      {sb with data := goCopy (listZeros ((p.length : Int) + sb.offset).toNat) sb.data}
    else sb
  let o := sb.offset.toNat
  let n := min p.length (sb1.data.length - o)
  ({sb1 with data := sb1.data.take o ++ goCopy (sb1.data.drop o) p}, (n, none))

/-- Seekbuffer.Read (file.go lines 180-187): end-of-file when the offset is
at or past the end; otherwise copy from the buffer at the offset, advance
the offset by the bytes read, and return the bytes together with their
count. -/
def Seekbuffer.Read (sb : Seekbuffer) (p : List Nat) :
    Seekbuffer × (List Nat × (Nat × Option GoErr)) :=
  if sb.offset ≥ (sb.data.length : Int) then (sb, ([], (0, some GoErr.eof)))
  else
    let o := sb.offset.toNat
    let n := min p.length (sb.data.length - o)
    ({sb with offset := sb.offset + (n : Int)}, ((sb.data.drop o).take n, (n, none)))

/-- Seekbuffer.Seek (file.go lines 226-236): set the offset absolutely, or
relative to the current offset, or relative to the end, and return it. -/
def Seekbuffer.Seek (sb : Seekbuffer) (offset : Int) (whence : Nat) :
    Seekbuffer × (Int × Option GoErr) :=
  let sb1 :=
    if whence = 0 then {sb with offset := offset}
    else if whence = 1 then {sb with offset := sb.offset + offset}
    else if whence = 2 then {sb with offset := (sb.data.length : Int) + offset}
    else sb
  (sb1, (sb1.offset, none))

/-- InvalidFile models the placeholder handle of invalidfile.go: only the
attempted path is stored. -/
structure InvalidFile where
  Path : String
deriving DecidableEq, Repr

/-- Name (invalidfile.go lines 20-22): the stored path. -/
def InvalidFile.Name (f : InvalidFile) : String :=
  f.Path

/-- Read (invalidfile.go lines 25-27). -/
def InvalidFile.Read (f : InvalidFile) (_p : List Nat) : Nat × Option GoErr :=
  (0, some (GoErr.pathError "read" (InvalidFile.Name f) GoErr.ebadf))

/-- Write (invalidfile.go lines 30-32). -/
def InvalidFile.Write (f : InvalidFile) (_p : List Nat) : Nat × Option GoErr :=
  (0, some (GoErr.pathError "write" (InvalidFile.Name f) GoErr.ebadf))

/-- Close (invalidfile.go lines 35-37): does nothing and returns nil. -/
def InvalidFile.Close (_f : InvalidFile) : Option GoErr :=
  none

/-- Sync (invalidfile.go lines 40-42). -/
def InvalidFile.Sync (f : InvalidFile) : Option GoErr :=
  some (GoErr.pathError "sync" (InvalidFile.Name f) GoErr.ebadf)

/-- Stat (invalidfile.go lines 45-47). -/
def InvalidFile.Stat (f : InvalidFile) : Except GoErr FInfo :=
  Except.error (GoErr.pathError "stat" (InvalidFile.Name f) GoErr.ebadf)

/-- Readdir (invalidfile.go lines 50-52). -/
def InvalidFile.Readdir (f : InvalidFile) (_n : Nat) :
    List FInfo × Option GoErr :=
  ([], some (GoErr.pathError "readdir" (InvalidFile.Name f) GoErr.ebadf))

/-- Seek (invalidfile.go lines 55-57). -/
def InvalidFile.Seek (f : InvalidFile) (_offset : Int) (_whence : Nat) :
    Int × Option GoErr :=
  (0, some (GoErr.pathError "seek" (InvalidFile.Name f) GoErr.ebadf))

/-- ReadAt (invalidfile.go lines 60-62). -/
def InvalidFile.ReadAt (f : InvalidFile) (_b : List Nat) (_off : Int) :
    Nat × Option GoErr :=
  (0, some (GoErr.pathError "read" (InvalidFile.Name f) GoErr.ebadf))

/-- WriteAt (invalidfile.go lines 65-67). -/
def InvalidFile.WriteAt (f : InvalidFile) (_b : List Nat) (_off : Int) :
    Nat × Option GoErr :=
  (0, some (GoErr.pathError "write" (InvalidFile.Name f) GoErr.ebadf))

/-- WriteString (invalidfile.go lines 70-72). -/
def InvalidFile.WriteString (f : InvalidFile) (_s : String) :
    Nat × Option GoErr :=
  (0, some (GoErr.pathError "write" (InvalidFile.Name f) GoErr.ebadf))

/-- Truncate (invalidfile.go lines 75-77). -/
def InvalidFile.Truncate (f : InvalidFile) (_size : Int) : Option GoErr :=
  some (GoErr.pathError "truncate" (InvalidFile.Name f) GoErr.ebadf)

/-- Readdirnames (invalidfile.go lines 80-82). -/
def InvalidFile.Readdirnames (f : InvalidFile) (_n : Nat) :
    List String × Option GoErr :=
  ([], some (GoErr.pathError "readdirnames" (InvalidFile.Name f) GoErr.ebadf))

theorem mapLookup_insert_self (l : List (String × MockFile)) (k : String)
    (v : MockFile) : mapLookup (mapInsert l k v) k = some v := by
  induction l with
  | nil => simp [mapInsert, mapLookup]
  | cons kv rest ih =>
    by_cases hk : kv.1 = k
    · simp [mapInsert, mapLookup, hk]
    · simp [mapInsert, mapLookup, hk, ih]

theorem mapLookup_insert_ne (l : List (String × MockFile)) (k k2 : String)
    (v : MockFile) (h : k2 ≠ k) :
    mapLookup (mapInsert l k v) k2 = mapLookup l k2 := by
  induction l with
  | nil => simp [mapInsert, mapLookup, Ne.symm h]
  | cons kv rest ih =>
    by_cases hk : kv.1 = k
    · rw [mapInsert, if_pos hk, mapLookup, if_neg (Ne.symm h), mapLookup,
        hk, if_neg (Ne.symm h)]
    · rw [mapInsert, if_neg hk, mapLookup, mapLookup]
      by_cases hk2 : kv.1 = k2
      · rw [if_pos hk2, if_pos hk2]
      · rw [if_neg hk2, if_neg hk2, ih]

/-- C9: on the InvalidFile placeholder, Close returns nil while every other
operation returns an `os.PathError` wrapping EBADF whose Path field is the
path the InvalidFile was constructed with. -/
theorem C9_invalidfile_behavior (path : String) (p b : List Nat) (s : String)
    (off size offset : Int) (whence n j : Nat) :
    InvalidFile.Close ⟨path⟩ = none ∧
    InvalidFile.Read ⟨path⟩ p
      = (0, some (GoErr.pathError "read" path GoErr.ebadf)) ∧
    InvalidFile.Write ⟨path⟩ p
      = (0, some (GoErr.pathError "write" path GoErr.ebadf)) ∧
    InvalidFile.Sync ⟨path⟩ = some (GoErr.pathError "sync" path GoErr.ebadf) ∧
    InvalidFile.Stat ⟨path⟩
      = Except.error (GoErr.pathError "stat" path GoErr.ebadf) ∧
    InvalidFile.Readdir ⟨path⟩ n
      = ([], some (GoErr.pathError "readdir" path GoErr.ebadf)) ∧
    InvalidFile.Seek ⟨path⟩ offset whence
      = (0, some (GoErr.pathError "seek" path GoErr.ebadf)) ∧
    InvalidFile.ReadAt ⟨path⟩ b off
      = (0, some (GoErr.pathError "read" path GoErr.ebadf)) ∧
    InvalidFile.WriteAt ⟨path⟩ b off
      = (0, some (GoErr.pathError "write" path GoErr.ebadf)) ∧
    InvalidFile.WriteString ⟨path⟩ s
      = (0, some (GoErr.pathError "write" path GoErr.ebadf)) ∧
    InvalidFile.Truncate ⟨path⟩ size
      = some (GoErr.pathError "truncate" path GoErr.ebadf) ∧
    InvalidFile.Readdirnames ⟨path⟩ j
      = ([], some (GoErr.pathError "readdirnames" path GoErr.ebadf)) :=
  ⟨rfl, rfl, rfl, rfl, rfl, rfl, rfl, rfl, rfl, rfl, rfl, rfl⟩

/-- C8: ExtendUnseekable drains the source eagerly at construction; a read
failure yields no Seekable together with the read error, and success yields
a buffer holding exactly the drained bytes with offset zero. -/
theorem C8_extend_unseekable (uf : UnSeekSrc) :
    (∀ e, uf.readErr = some e → ExtendUnseekable uf = (none, some e)) ∧
    (uf.readErr = none →
      ExtendUnseekable uf = (some ⟨uf.avail, 0, uf⟩, none)) := by
  constructor
  · intro e he
    simp [ExtendUnseekable, readAll, he]
  · intro he
    simp [ExtendUnseekable, readAll, he]

theorem C8_extend_unseekable_witness :
    ExtendUnseekable ⟨"a", [1, 2], some GoErr.eof⟩ = (none, some GoErr.eof) ∧
    ExtendUnseekable ⟨"a", [1, 2], none⟩
      = (some ⟨[1, 2], 0, ⟨"a", [1, 2], none⟩⟩, none) :=
  ⟨(C8_extend_unseekable ⟨"a", [1, 2], some GoErr.eof⟩).1 GoErr.eof rfl,
   (C8_extend_unseekable ⟨"a", [1, 2], none⟩).2 rfl⟩

/-- C2 (amended): the generic MkdirAll fallback returns nil unconditionally,
for every backend, even when the per-component Mkdir calls fail. -/
theorem C2_mkdirall_always_nil {σ : Type} (fs : FS σ) (name : String)
    (perm : Nat) (h : fs.natives.MkdirAll = none) :
    (FS.MkdirAll fs name perm).2 = none := by
  unfold FS.MkdirAll
  rw [h]

/-- permFiler is a backend every one of whose primitive operations fails
with a permission error; it implements no optional native method. -/
def permFiler : Filer Unit :=
  ⟨fun s _ _ _ => (s, Except.error (GoErr.pathError "open" "" GoErr.permission)),
   fun s _ _ => (s, some (GoErr.pathError "mkdir" "" GoErr.permission)),
   fun s _ => (s, some (GoErr.pathError "remove" "" GoErr.permission)),
   fun _ _ => Except.error (GoErr.pathError "stat" "" GoErr.permission),
   fun _ _ => Except.error (GoErr.pathError "stat" "" GoErr.permission),
   fun s _ => (s, none),
   fun s _ _ => (s, ([], some GoErr.eof))⟩

/-- permNatives: the permission-denying backend implements no optional
interface. -/
def permNatives : Natives Unit :=
  ⟨none, none, none, none, none, none, none, none, none⟩

/-- C2 (counterexample): over a backend whose Mkdir fails for a structural
reason (permission denied), the generic MkdirAll still returns nil, so it
does not return a non-nil error as claimed. -/
theorem C2_mkdirall_counterexample :
    (permFiler.Mkdir () "/a" 493).2
      = some (GoErr.pathError "mkdir" "" GoErr.permission) ∧
    (FS.MkdirAll (ExtendFiler permFiler permNatives ()) "/a/b" 493).2
      = none :=
  ⟨rfl, rfl⟩

theorem C2_mkdirall_always_nil_witness :
    (FS.MkdirAll (mockFS "/" ⟨[], 0⟩) "/p/q" 493).2 = none :=
  C2_mkdirall_always_nil (mockFS "/" ⟨[], 0⟩) "/p/q" 493 rfl

/-- C6: whenever the wrapped backend implements a native optional method,
the synthesized operation is exactly one application of that native method
to the current state and the unmodified arguments — its result is returned
unaltered and no generic fallback (and in particular no minimal-contract
primitive) is executed. -/
theorem C6_native_delegation {σ : Type} (fs : FS σ) :
    (∀ f name, fs.natives.Open = some f →
      FS.Open fs name = ({fs with st := (f fs.st name).1}, (f fs.st name).2)) ∧
    (∀ f name, fs.natives.Create = some f →
      FS.Create fs name
        = ({fs with st := (f fs.st name).1}, (f fs.st name).2)) ∧
    (∀ f name perm, fs.natives.MkdirAll = some f →
      FS.MkdirAll fs name perm
        = ({fs with st := (f fs.st name perm).1}, (f fs.st name perm).2)) ∧
    (∀ f name fuel, fs.natives.RemoveAll = some f →
      FS.RemoveAllFuel fuel fs name
        = ({fs with st := (f fs.st name).1}, (f fs.st name).2)) ∧
    (∀ f name size, fs.natives.Truncate = some f →
      FS.Truncate fs name size
        = ({fs with st := (f fs.st name size).1}, (f fs.st name size).2)) ∧
    (∀ nav dir, fs.natives.dirnav = some nav →
      FS.Chdir fs dir
        = ({fs with st := (nav.Chdir fs.st dir).1}, (nav.Chdir fs.st dir).2)) ∧
    (∀ nav, fs.natives.dirnav = some nav →
      FS.Getwd fs
        = ({fs with st := (nav.Getwd fs.st).1}, (nav.Getwd fs.st).2)) ∧
    (∀ f, fs.natives.Separator = some f → FS.Separator fs = f fs.st) ∧
    (∀ f, fs.natives.ListSeparator = some f →
      FS.ListSeparator fs = f fs.st) ∧
    (∀ f, fs.natives.TempDir = some f → FS.TempDir fs = f fs.st) := by
  refine ⟨?_, ?_, ?_, ?_, ?_, ?_, ?_, ?_, ?_, ?_⟩
  · intro f name h
    unfold FS.Open
    rw [h]
  · intro f name h
    unfold FS.Create
    rw [h]
  · intro f name perm h
    unfold FS.MkdirAll
    rw [h]
  · intro f name fuel h
    unfold FS.RemoveAllFuel
    rw [h]
  · intro f name size h
    unfold FS.Truncate
    rw [h]
  · intro nav dir h
    unfold FS.Chdir
    rw [h]
  · intro nav h
    unfold FS.Getwd
    rw [h]
  · intro f h
    unfold FS.Separator
    rw [h]
  · intro f h
    unfold FS.ListSeparator
    rw [h]
  · intro f h
    unfold FS.TempDir
    rw [h]

/-- instrFiler is an instrumented backend whose minimal-contract primitives
each add 1000 to a call-counting state, so that any execution of generic
fallback logic would be visible in the final count. -/
def instrFiler : Filer Nat :=
  ⟨fun s _ _ _ => (s + 1000, Except.ok "g"),
   fun s _ _ => (s + 1000, none),
   fun s _ => (s + 1000, none),
   fun _ _ => Except.error GoErr.notExist,
   fun _ _ => Except.error GoErr.notExist,
   fun s _ => (s + 1000, none),
   fun s _ _ => (s + 1000, ([], some GoErr.eof))⟩

/-- instrNatives implements every optional native method; each native adds
exactly 1 to the call-counting state. -/
def instrNatives : Natives Nat :=
  ⟨some (fun s _ => (s + 1, Except.ok "n")),
   some (fun s _ => (s + 1, Except.ok "n")),
   some (fun s _ _ => (s + 1, none)),
   some (fun s _ => (s + 1, none)),
   some (fun s _ _ => (s + 1, none)),
   some ⟨fun s _ => (s + 1, none), fun s => (s + 1, ("/nat", none))⟩,
   some (fun s => s + 7),
   some (fun s => s + 8),
   some (fun _ => "/nattmp")⟩

/-- instrFS wraps the instrumented backend with the counter at zero. -/
def instrFS : FS Nat :=
  ExtendFiler instrFiler instrNatives 0

theorem C6_native_delegation_witness :
    FS.Open instrFS "x" = ({instrFS with st := 1}, Except.ok "n") ∧
    FS.Create instrFS "x" = ({instrFS with st := 1}, Except.ok "n") ∧
    FS.MkdirAll instrFS "/x/y" 493 = ({instrFS with st := 1}, none) ∧
    FS.RemoveAllFuel 9 instrFS "/x" = ({instrFS with st := 1}, none) ∧
    FS.Truncate instrFS "/x" 3 = ({instrFS with st := 1}, none) ∧
    FS.Chdir instrFS "/d" = ({instrFS with st := 1}, none) ∧
    FS.Getwd instrFS = ({instrFS with st := 1}, ("/nat", none)) ∧
    FS.Separator instrFS = 7 ∧
    FS.ListSeparator instrFS = 8 ∧
    FS.TempDir instrFS = "/nattmp" :=
  ⟨(C6_native_delegation instrFS).1 _ "x" rfl,
   (C6_native_delegation instrFS).2.1 _ "x" rfl,
   (C6_native_delegation instrFS).2.2.1 _ "/x/y" 493 rfl,
   (C6_native_delegation instrFS).2.2.2.1 _ "/x" 9 rfl,
   (C6_native_delegation instrFS).2.2.2.2.1 _ "/x" 3 rfl,
   (C6_native_delegation instrFS).2.2.2.2.2.1 _ "/d" rfl,
   (C6_native_delegation instrFS).2.2.2.2.2.2.1 _ rfl,
   (C6_native_delegation instrFS).2.2.2.2.2.2.2.1 _ rfl,
   (C6_native_delegation instrFS).2.2.2.2.2.2.2.2.1 _ rfl,
   (C6_native_delegation instrFS).2.2.2.2.2.2.2.2.2 _ rfl⟩

/-- logFiler is a backend that records, in its state, every name its
`OpenFile` receives, making the argument at the wrapper-backend boundary
observable. -/
def logFiler : Filer (List String) :=
  ⟨fun s name _ _ => (s ++ [name], Except.ok name),
   fun s name _ => (s ++ [name], none),
   fun s name => (s ++ [name], none),
   fun _ _ => Except.error GoErr.notExist,
   fun _ _ => Except.error GoErr.notExist,
   fun s _ => (s, none),
   fun s _ _ => (s, ([], some GoErr.eof))⟩

/-- logNatives: the logging backend implements no optional interface. -/
def logNatives : Natives (List String) :=
  ⟨none, none, none, none, none, none, none, none, none⟩

/-- logFS wraps the logging backend with an arbitrary working directory and
an empty log. -/
def logFS (cwd : String) : FS (List String) :=
  ⟨cwd, logFiler, logNatives, []⟩

/-- C4 (counterexample): the synthesized OpenFile passes an absolute path to
the backend verbatim, not in normalized form — for the path with a
redundant separator the backend receives the original string, which differs
from its cleaned form, refuting the claim that redundant separators are
collapsed and dot segments resolved before the backend sees the path. -/
theorem C4_passthrough_counterexample :
    (FS.OpenFile (logFS "/wd") "/a//b" 0 0).1.st = ["/a//b"] ∧
    filepathClean "/a//b" = "/a/b" ∧
    ("/a//b" : String) ≠ "/a/b" :=
  ⟨rfl, by decide, by decide⟩

/-- C4 (amended): a path classified as absolute (natively absolute or
beginning with a slash or backslash) is passed through resolution verbatim
— with no normalization applied — for every working directory and whether
or not the backend navigates directories natively, so the working directory
never affects the resolved path; in particular the synthesized OpenFile
hands the backend exactly the caller's string. -/
theorem C4_absolute_passthrough (d d2 : Bool) (cwd cwd2 name : String)
    (h : isVirtualAbs name = true) :
    resolvePath d cwd name = name ∧
    resolvePath d2 cwd2 name = resolvePath d cwd name ∧
    (∀ (σ : Type) (fs : FS σ) (flag perm : Nat),
      FS.OpenFile fs name flag perm
        = ({fs with st := (fs.filer.OpenFile fs.st name flag perm).1},
           (fs.filer.OpenFile fs.st name flag perm).2)) := by
  refine ⟨?_, ?_, ?_⟩
  · rw [resolvePath, if_pos h]
  · rw [resolvePath, if_pos h, resolvePath, if_pos h]
  · intro σ fs flag perm
    unfold FS.OpenFile FS.resolve
    rw [resolvePath, if_pos h]

theorem C4_absolute_passthrough_witness :
    resolvePath false "/u" "/a//b" = "/a//b" ∧
    resolvePath true "/v/w" "/a//b" = resolvePath false "/u" "/a//b" ∧
    FS.OpenFile (logFS "/wd") "/a//b" 0 0
      = ({logFS "/wd" with st := ["/a//b"]}, Except.ok "/a//b") := by
  have h := C4_absolute_passthrough false true "/u" "/v/w" "/a//b" (by decide)
  exact ⟨h.1, h.2.1, h.2.2 (List String) (logFS "/wd") 0 0⟩

/-- mkSub is a mock backend state holding a single directory at "/sub". -/
def mkSub : MockFiler :=
  ⟨[("/sub", ⟨"/sub", 2147483648 + 493, true, [], []⟩)], 0⟩

/-- C3 (counterexample): on the wrapper produced by ExtendFiler over the
mock backend holding the directory "/sub", the fallback Chdir with the
relative argument "sub" succeeds, yet afterwards the tracked working
directory is the relative string "sub" — not an absolute-form path — so the
claimed invariant fails after a nil-returning relative Chdir. -/
theorem C3_cwd_counterexample :
    ((ExtendFiler mockFilerOps noNatives mkSub).Chdir "sub").2 = none ∧
    ((ExtendFiler mockFilerOps noNatives mkSub).Chdir "sub").1.cwd = "sub" ∧
    isVirtualAbs "sub" = false :=
  ⟨rfl, rfl, by decide⟩

/-- C3 (amended): ExtendFiler initializes the working directory to the root
separator, and a nil-returning fallback Chdir sets it to the cleaned form
of its argument — which is absolute only when the argument was; a relative
argument leaves a cleaned relative working directory. -/
theorem C3_cwd_tracking :
    (∀ (σ : Type) (fl : Filer σ) (nv : Natives σ) (s : σ),
      (ExtendFiler fl nv s).cwd = "/") ∧
    (∀ (σ : Type) (fs fs2 : FS σ) (dir : String),
      fs.natives.dirnav = none → FS.Chdir fs dir = (fs2, none) →
      fs2.cwd = filepathClean dir) := by
  constructor
  · intro σ fl nv s
    rfl
  · intro σ fs fs2 dir hnav h
    rcases hopen : FS.Open fs dir with ⟨fs1, r⟩
    cases r with
    | error e =>
      simp [FS.Chdir, hnav, hopen] at h
    | ok f =>
      rcases hstat : fs1.filer.FStat fs1.st f with e | info
      · simp [FS.Chdir, hnav, hopen, hstat] at h
      · rcases hdir : info.isDir with _ | _
        · simp [FS.Chdir, hnav, hopen, hstat, hdir] at h
        · simp [FS.Chdir, hnav, hopen, hstat, hdir] at h
          rw [← h]

theorem C3_cwd_tracking_witness :
    (ExtendFiler mockFilerOps noNatives mkSub).cwd = "/" ∧
    ((mockFS "/" mkSub).Chdir "sub").1.cwd = filepathClean "sub" :=
  ⟨C3_cwd_tracking.1 MockFiler mockFilerOps noNatives mkSub,
   C3_cwd_tracking.2 MockFiler (mockFS "/" mkSub)
     ((mockFS "/" mkSub).Chdir "sub").1 "sub" rfl rfl⟩

theorem mockOpenFile_rdonly (m : MockFiler) (p : String) :
    mockOpenFile m p O_RDONLY 0 =
      (match mapLookup m.files (filepathClean p) with
       | none =>
         (m, Except.error (GoErr.pathError "open" (filepathClean p) GoErr.notExist))
       | some _ =>
         ({m with openCount := m.openCount + 1}, Except.ok (filepathClean p))) :=
  rfl

/-- truncState is the mock state after the write+truncate open of `p` found
file `f0`: the file's content emptied, the ghost open count bumped. -/
def truncState (m : MockFiler) (p : String) (f0 : MockFile) : MockFiler :=
  ⟨mapInsert m.files (filepathClean p) {f0 with content := []},
   m.openCount + 1⟩

theorem mockOpenFile_wronly_trunc (m : MockFiler) (p : String) (f0 : MockFile)
    (h : mapLookup m.files (filepathClean p) = some f0) :
    mockOpenFile m p (O_WRONLY ||| O_TRUNC) 438 =
      (truncState m p f0, Except.ok (filepathClean p)) := by
  have base : mockOpenFile m p (O_WRONLY ||| O_TRUNC) 438 =
      (match mapLookup m.files (filepathClean p) with
       | none =>
         (m, Except.error (GoErr.pathError "open" (filepathClean p) GoErr.notExist))
       | some f => (truncState m p f, Except.ok (filepathClean p))) := rfl
  rw [base, h]

/-- mkTrunc is a mock backend state holding one plain file at "/x.txt" with
three bytes of content. -/
def mkTrunc : MockFiler :=
  ⟨[("/x.txt", ⟨"/x.txt", 438, false, [104, 105, 33], []⟩)], 0⟩

/-- C1 (counterexample): over the mock backend (which has no native
Truncate), truncating the three-byte file "/x.txt" to the larger size 5
succeeds but a subsequent Stat reports size 0, not 5 — the generic fallback
ignores the requested size, so no zero-padding to the requested size
occurs. -/
theorem C1_truncate_counterexample :
    ((ExtendFiler mockFilerOps noNatives mkTrunc).Truncate "/x.txt" 5).2
      = none ∧
    ((ExtendFiler mockFilerOps noNatives mkTrunc).Truncate "/x.txt" 5).1.Stat
        "/x.txt"
      = Except.ok ⟨"x.txt", 0, 438, false⟩ ∧
    ((0 : Int) ≠ 5) :=
  ⟨rfl, rfl, by decide⟩

/-- C1 (amended): on the ExtendFiler wrapper over a backend without native
Truncate (the mock backend), Truncate on an existing file succeeds and a
subsequent Stat reports size exactly zero, whatever size was requested:
the fallback opens with write+truncate flags and closes, emptying the file
and ignoring the size argument. -/
theorem C1_truncate_always_zero (cwd : String) (m : MockFiler) (name : String)
    (size : Int) (f0 : MockFile)
    (h : mapLookup m.files (filepathClean (resolvePath false cwd name))
      = some f0) :
    ((mockFS cwd m).Truncate name size).2 = none ∧
    (∃ info, ((mockFS cwd m).Truncate name size).1.Stat name
        = Except.ok info ∧ info.size = 0) := by
  have hof := mockOpenFile_wronly_trunc m (resolvePath false cwd name) f0 h
  have base : (mockFS cwd m).Truncate name size
      = (mockFS cwd
          (mockFClose (truncState m (resolvePath false cwd name) f0)
            (filepathClean (resolvePath false cwd name))).1, none) := by
    simp only [FS.Truncate, mockFS, noNatives, mockFilerOps, FS.resolve,
      Option.isSome_none, hof, mockFClose]
  refine ⟨by rw [base], ⟨mockInfo {f0 with content := []}, ?_, rfl⟩⟩
  have base2 : ((mockFS cwd m).Truncate name size).1.Stat name
      = mockStat
          (mockFClose (truncState m (resolvePath false cwd name) f0)
            (filepathClean (resolvePath false cwd name))).1
          (resolvePath false cwd name) := by
    rw [base]
    rfl
  have hlook : mapLookup
      (mockFClose (truncState m (resolvePath false cwd name) f0)
        (filepathClean (resolvePath false cwd name))).1.files
      (filepathClean (resolvePath false cwd name))
      = some {f0 with content := []} := by
    show mapLookup
      (mapInsert m.files (filepathClean (resolvePath false cwd name))
        {f0 with content := []})
      (filepathClean (resolvePath false cwd name)) = _
    exact mapLookup_insert_self m.files (filepathClean (resolvePath false cwd name))
      {f0 with content := []}
  rw [base2]
  simp only [mockStat]
  rw [hlook]

theorem C1_truncate_always_zero_witness :
    ((mockFS "/" mkTrunc).Truncate "/x.txt" 7).2 = none ∧
    (∃ info, ((mockFS "/" mkTrunc).Truncate "/x.txt" 7).1.Stat "/x.txt"
        = Except.ok info ∧ info.size = 0) :=
  C1_truncate_always_zero "/" mkTrunc "/x.txt" 7
    ⟨"/x.txt", 438, false, [104, 105, 33], []⟩ rfl

/-- C5: on the mock backend (no native directory navigation), Chdir to a
path whose stat reports a non-directory returns a path error that carries
the attempted path under the "chdir" operation with a "not a directory"
cause — a different error shape from any not-found path error — and in
every error case of Chdir the working directory is unchanged and no handle
is left open (the ghost open count is restored). -/
theorem C5_chdir_error_behavior (cwd : String) (m : MockFiler) (dir : String) :
    (∀ f0, mapLookup m.files (filepathClean (resolvePath false cwd dir))
        = some f0 → f0.isDir = false →
      ((mockFS cwd m).Chdir dir).2
        = some (GoErr.pathError "chdir" dir (GoErr.msg "not a directory")) ∧
      (∀ op p, GoErr.pathError "chdir" dir (GoErr.msg "not a directory")
        ≠ GoErr.pathError op p GoErr.notExist)) ∧
    (∀ fs2 e, (mockFS cwd m).Chdir dir = (fs2, some e) →
      fs2.cwd = cwd ∧ fs2.st.openCount = m.openCount) := by
  rcases hlk : mapLookup m.files (filepathClean (resolvePath false cwd dir))
    with _ | f0
  · constructor
    · intro f0 hl
      exact absurd hl (by simp)
    · intro fs2 e h2
      simp [FS.Chdir, FS.Open, mockFS, noNatives, mockFilerOps,
        FS.resolve, mockOpenFile_rdonly, hlk] at h2
      rw [← h2.1]
      exact ⟨rfl, rfl⟩
  · rcases hdirf : f0.isDir with _ | _
    · constructor
      · intro f1 hl _
        constructor
        · simp [FS.Chdir, FS.Open, mockFS, noNatives, mockFilerOps,
            FS.resolve, mockOpenFile_rdonly, hlk, mockFStat, mockFClose,
            mockInfo, hdirf]
        · intro op p
          simp
      · intro fs2 e h2
        simp [FS.Chdir, FS.Open, mockFS, noNatives, mockFilerOps,
          FS.resolve, mockOpenFile_rdonly, hlk, mockFStat, mockFClose,
          mockInfo, hdirf] at h2
        rw [← h2.1]
        exact ⟨rfl, by simp⟩
    · constructor
      · intro f1 hl hdir1
        have hf : f0 = f1 := by
          injection hl
        rw [← hf, hdirf] at hdir1
        exact absurd hdir1 (by simp)
      · intro fs2 e h2
        simp [FS.Chdir, FS.Open, mockFS, noNatives, mockFilerOps,
          FS.resolve, mockOpenFile_rdonly, hlk, mockFStat, mockFClose,
          mockInfo, hdirf] at h2

theorem C5_chdir_error_behavior_witness :
    ((mockFS "/" mkTrunc).Chdir "/x.txt").2
      = some (GoErr.pathError "chdir" "/x.txt" (GoErr.msg "not a directory")) ∧
    ((mockFS "/" mkTrunc).Chdir "/x.txt").1.cwd = "/" ∧
    ((mockFS "/" mkTrunc).Chdir "/x.txt").1.st.openCount
      = mkTrunc.openCount := by
  have h1 := (C5_chdir_error_behavior "/" mkTrunc "/x.txt").1
    ⟨"/x.txt", 438, false, [104, 105, 33], []⟩ rfl rfl
  have h2 := (C5_chdir_error_behavior "/" mkTrunc "/x.txt").2
    ((mockFS "/" mkTrunc).Chdir "/x.txt").1
    (GoErr.pathError "chdir" "/x.txt" (GoErr.msg "not a directory"))
    (by rw [show ((mockFS "/" mkTrunc).Chdir "/x.txt")
          = (((mockFS "/" mkTrunc).Chdir "/x.txt").1,
             ((mockFS "/" mkTrunc).Chdir "/x.txt").2) from rfl, h1.1])
  exact ⟨h1.1, h2.1, h2.2⟩

theorem resolvePath_of_virtualAbs (d : Bool) (cwd p : String)
    (hv : isVirtualAbs p = true) : resolvePath d cwd p = p := by
  rw [resolvePath, if_pos hv]

theorem isAbs_data (s : String) (h : filepathIsAbs s = true) :
    ∃ t, s.data = '/' :: t := by
  unfold filepathIsAbs at h
  rcases hd : s.data with _ | ⟨c, t⟩
  · rw [hd] at h
    simp at h
  · rw [hd] at h
    simp at h
    exact ⟨t, by rw [h]⟩

theorem isVirtualAbs_of_isAbs (s : String) (h : filepathIsAbs s = true) :
    isVirtualAbs s = true := by
  unfold isVirtualAbs
  rw [h]
  simp

theorem filepathIsAbs_clean (s : String) (h : filepathIsAbs s = true) :
    filepathIsAbs (filepathClean s) = true := by
  obtain ⟨t, hd⟩ := isAbs_data s h
  have hne : ¬(s.data = []) := by
    rw [hd]
    simp
  unfold filepathClean
  rw [if_neg hne]
  simp only [h, if_true]
  unfold filepathIsAbs
  simp

theorem filepathIsAbs_append (a b : String) (h : filepathIsAbs a = true) :
    filepathIsAbs (a ++ b) = true := by
  obtain ⟨t, hd⟩ := isAbs_data a h
  unfold filepathIsAbs
  rw [String.data_append, hd]
  simp

theorem resolve_abs (cwd name : String) (habs : filepathIsAbs cwd = true) :
    isVirtualAbs (resolvePath false cwd name) = true := by
  rcases hv : isVirtualAbs name with _ | _
  · have hne : ¬(cwd = "") := by
      intro he
      obtain ⟨t, hd⟩ := isAbs_data cwd habs
      rw [he] at hd
      simp at hd
    rw [resolvePath, if_neg (by rw [hv]; simp)]
    simp only [Bool.false_eq_true, if_false]
    by_cases hb : name = ""
    · rw [filepathJoin, if_neg (by simp [hne]), if_neg hne, if_pos hb]
      exact isVirtualAbs_of_isAbs _
        (filepathIsAbs_clean _ (filepathIsAbs_clean _ habs))
    · rw [filepathJoin, if_neg (by simp [hne]), if_neg hne, if_neg hb]
      exact isVirtualAbs_of_isAbs _ (filepathIsAbs_clean _
        (filepathIsAbs_clean _ (filepathIsAbs_append _ _
          (filepathIsAbs_append _ _ habs))))
  · rw [resolvePath_of_virtualAbs false cwd name hv]
    exact hv

theorem removeAllF_plain (fuel : Nat) (cwd : String) (m : MockFiler)
    (p : String) (f0 : MockFile) (hv : isVirtualAbs p = true)
    (h : mapLookup m.files (filepathClean p) = some f0)
    (hdirf : f0.isDir = false) :
    removeAllF (fuel + 1) (mockFS cwd m) p = FS.Remove (mockFS cwd m) p := by
  simp [removeAllF, FS.Open, FS.Remove, mockFS, noNatives, mockFilerOps,
    FS.resolve, resolvePath, hv, mockOpenFile_rdonly, h, mockFStat,
    mockFClose, mockRemove, mockInfo, hdirf]

/-- C7: on the ExtendFiler wrapper over the mock backend (no native
RemoveAll), RemoveAll on a path whose stat reports a plain file equals a
single Remove call on that path: same resulting wrapper state (backend map
and ghost open count included) and same returned error. The working
directory is assumed absolute, as established at construction. -/
theorem C7_removeall_plain_equiv (fuel : Nat) (cwd : String) (m : MockFiler)
    (name : String) (f0 : MockFile)
    (habs : filepathIsAbs cwd = true)
    (h : mapLookup m.files (filepathClean (resolvePath false cwd name))
      = some f0)
    (hdirf : f0.isDir = false) :
    FS.RemoveAllFuel (fuel + 1) (mockFS cwd m) name
      = FS.Remove (mockFS cwd m) name := by
  have hv : isVirtualAbs (resolvePath false cwd name) = true :=
    resolve_abs cwd name habs
  have step : FS.RemoveAllFuel (fuel + 1) (mockFS cwd m) name
      = removeAllF (fuel + 1) (mockFS cwd m) (resolvePath false cwd name) :=
    rfl
  have hres2 : (mockFS cwd m).resolve (resolvePath false cwd name)
      = (mockFS cwd m).resolve name := by
    show resolvePath false cwd (resolvePath false cwd name)
      = resolvePath false cwd name
    exact resolvePath_of_virtualAbs false cwd _ hv
  rw [step, removeAllF_plain fuel cwd m _ f0 hv h hdirf]
  unfold FS.Remove
  rw [hres2]

theorem C7_removeall_plain_equiv_witness :
    FS.RemoveAllFuel 4 (mockFS "/" mkTrunc) "/x.txt"
      = FS.Remove (mockFS "/" mkTrunc) "/x.txt" :=
  C7_removeall_plain_equiv 3 "/" mkTrunc "/x.txt"
    ⟨"/x.txt", 438, false, [104, 105, 33], []⟩ rfl rfl rfl

theorem goCopy_length (dst src : List Nat) :
    (goCopy dst src).length = dst.length := by
  unfold goCopy
  rw [List.length_append, List.length_take, List.length_drop]
  omega

theorem goCopy_goCopy (d p q : List Nat) (h : q.length = p.length) :
    goCopy (goCopy d p) q = goCopy d q := by
  unfold goCopy
  rw [List.length_append, List.length_take, List.length_drop]
  have e1 : min d.length p.length + (d.length - min p.length d.length)
      = d.length := by omega
  rw [e1, h]
  congr 1
  exact List.drop_left' (by rw [List.length_take]; omega)

theorem writeSegment_take (o : Nat) (d1 p : List Nat) (h1 : o ≤ d1.length)
    (h2 : p.length ≤ d1.length - o) :
    ((d1.take o ++ goCopy (d1.drop o) p).drop o).take p.length = p := by
  rw [List.drop_left' (by rw [List.length_take]; omega)]
  unfold goCopy
  have hpt : List.take (List.drop o d1).length p = p :=
    List.take_of_length_le (by rw [List.length_drop]; omega)
  rw [hpt]
  exact List.take_left' rfl

/-- C10: in the seek-buffering adapter, Write leaves the offset field
unchanged while Read advances the offset by exactly the number of bytes it
read; Write places its argument into the buffer at the current offset
(growing the buffer when needed); and consequently two successive Writes of
equal length without an intervening Seek produce the same buffer as the
second Write alone — they overwrite the same region rather than append. -/
theorem C10_seekbuffer_offsets (sb : Seekbuffer) (p q : List Nat)
    (hoff : 0 ≤ sb.offset) :
    ((sb.Write p).1).offset = sb.offset ∧
    (∀ r, ((sb.Read r).1).offset
      = sb.offset + (((sb.Read r).2.2.1 : Nat) : Int)) ∧
    ((((sb.Write p).1).data.drop sb.offset.toNat).take p.length = p) ∧
    (q.length = p.length → ((sb.Write p).1.Write q).1 = (sb.Write q).1) := by
  refine ⟨?_, ?_, ?_, ?_⟩
  · unfold Seekbuffer.Write
    split <;> rfl
  · intro r
    unfold Seekbuffer.Read
    split
    · simp
    · simp
  · by_cases hc : (p.length : Int) + sb.offset > (sb.data.length : Int)
    · have hWp : (sb.Write p).1
          = ⟨(goCopy (listZeros ((p.length : Int) + sb.offset).toNat)
                sb.data).take sb.offset.toNat
              ++ goCopy ((goCopy (listZeros ((p.length : Int) + sb.offset).toNat)
                sb.data).drop sb.offset.toNat) p,
             sb.offset, sb.uf⟩ := by
        unfold Seekbuffer.Write
        rw [if_pos hc]
      rw [hWp]
      exact writeSegment_take sb.offset.toNat _ p
        (by simp [goCopy_length, listZeros])
        (by simp [goCopy_length, listZeros]; omega)
    · have hWp : (sb.Write p).1
          = ⟨sb.data.take sb.offset.toNat
              ++ goCopy (sb.data.drop sb.offset.toNat) p,
             sb.offset, sb.uf⟩ := by
        unfold Seekbuffer.Write
        rw [if_neg hc]
      rw [hWp]
      exact writeSegment_take sb.offset.toNat _ p (by omega) (by omega)
  · intro hqp
    by_cases hc : (p.length : Int) + sb.offset > (sb.data.length : Int)
    · have hWp : (sb.Write p).1
          = ⟨(goCopy (listZeros ((p.length : Int) + sb.offset).toNat)
                sb.data).take sb.offset.toNat
              ++ goCopy ((goCopy (listZeros ((p.length : Int) + sb.offset).toNat)
                sb.data).drop sb.offset.toNat) p,
             sb.offset, sb.uf⟩ := by
        unfold Seekbuffer.Write
        rw [if_pos hc]
      have hWq : (sb.Write q).1
          = ⟨(goCopy (listZeros ((q.length : Int) + sb.offset).toNat)
                sb.data).take sb.offset.toNat
              ++ goCopy ((goCopy (listZeros ((q.length : Int) + sb.offset).toNat)
                sb.data).drop sb.offset.toNat) q,
             sb.offset, sb.uf⟩ := by
        unfold Seekbuffer.Write
        rw [if_pos (by rw [hqp]; exact hc)]
      have hlen1 : (goCopy (listZeros ((p.length : Int) + sb.offset).toNat)
          sb.data).length = p.length + sb.offset.toNat := by
        simp [goCopy_length, listZeros]
        omega
      have hD1len : ((goCopy (listZeros ((p.length : Int) + sb.offset).toNat)
            sb.data).take sb.offset.toNat
          ++ goCopy ((goCopy (listZeros ((p.length : Int) + sb.offset).toNat)
            sb.data).drop sb.offset.toNat) p).length
          = p.length + sb.offset.toNat := by
        simp [List.length_append, List.length_take, goCopy_length,
          List.length_drop, listZeros]
        omega
      have houter : ¬((q.length : Int) + sb.offset
          > (((goCopy (listZeros ((p.length : Int) + sb.offset).toNat)
              sb.data).take sb.offset.toNat
            ++ goCopy ((goCopy (listZeros ((p.length : Int) + sb.offset).toNat)
              sb.data).drop sb.offset.toNat) p).length : Int)) := by
        rw [hD1len, hqp]
        omega
      rw [hWp]
      have hWo : (Seekbuffer.Write
          ⟨(goCopy (listZeros ((p.length : Int) + sb.offset).toNat)
              sb.data).take sb.offset.toNat
            ++ goCopy ((goCopy (listZeros ((p.length : Int) + sb.offset).toNat)
              sb.data).drop sb.offset.toNat) p,
           sb.offset, sb.uf⟩ q).1
          = ⟨((goCopy (listZeros ((p.length : Int) + sb.offset).toNat)
              sb.data).take sb.offset.toNat
            ++ goCopy ((goCopy (listZeros ((p.length : Int) + sb.offset).toNat)
              sb.data).drop sb.offset.toNat) p).take sb.offset.toNat
            ++ goCopy (((goCopy (listZeros ((p.length : Int) + sb.offset).toNat)
              sb.data).take sb.offset.toNat
            ++ goCopy ((goCopy (listZeros ((p.length : Int) + sb.offset).toNat)
              sb.data).drop sb.offset.toNat) p).drop sb.offset.toNat) q,
           sb.offset, sb.uf⟩ := by
        unfold Seekbuffer.Write
        rw [if_neg houter]
      rw [hWo, hWq, hqp]
      congr 1
      have htk : ((goCopy (listZeros ((p.length : Int) + sb.offset).toNat)
            sb.data).take sb.offset.toNat
          ++ goCopy ((goCopy (listZeros ((p.length : Int) + sb.offset).toNat)
            sb.data).drop sb.offset.toNat) p).take sb.offset.toNat
          = (goCopy (listZeros ((p.length : Int) + sb.offset).toNat)
            sb.data).take sb.offset.toNat := by
        exact List.take_left' (by rw [List.length_take, hlen1]; omega)
      have hdr : ((goCopy (listZeros ((p.length : Int) + sb.offset).toNat)
            sb.data).take sb.offset.toNat
          ++ goCopy ((goCopy (listZeros ((p.length : Int) + sb.offset).toNat)
            sb.data).drop sb.offset.toNat) p).drop sb.offset.toNat
          = goCopy ((goCopy (listZeros ((p.length : Int) + sb.offset).toNat)
            sb.data).drop sb.offset.toNat) p := by
        exact List.drop_left' (by rw [List.length_take, hlen1]; omega)
      rw [htk, hdr, goCopy_goCopy _ _ _ hqp]
    · have hWp : (sb.Write p).1
          = ⟨sb.data.take sb.offset.toNat
              ++ goCopy (sb.data.drop sb.offset.toNat) p,
             sb.offset, sb.uf⟩ := by
        unfold Seekbuffer.Write
        rw [if_neg hc]
      have hWq : (sb.Write q).1
          = ⟨sb.data.take sb.offset.toNat
              ++ goCopy (sb.data.drop sb.offset.toNat) q,
             sb.offset, sb.uf⟩ := by
        unfold Seekbuffer.Write
        rw [if_neg (by rw [hqp]; exact hc)]
      have hD1len : (sb.data.take sb.offset.toNat
          ++ goCopy (sb.data.drop sb.offset.toNat) p).length
          = sb.data.length := by
        simp [List.length_append, List.length_take, goCopy_length,
          List.length_drop]
        omega
      have houter : ¬((q.length : Int) + sb.offset
          > ((sb.data.take sb.offset.toNat
            ++ goCopy (sb.data.drop sb.offset.toNat) p).length : Int)) := by
        rw [hD1len, hqp]
        omega
      rw [hWp]
      have hWo : (Seekbuffer.Write
          ⟨sb.data.take sb.offset.toNat
            ++ goCopy (sb.data.drop sb.offset.toNat) p,
           sb.offset, sb.uf⟩ q).1
          = ⟨(sb.data.take sb.offset.toNat
              ++ goCopy (sb.data.drop sb.offset.toNat) p).take sb.offset.toNat
            ++ goCopy ((sb.data.take sb.offset.toNat
              ++ goCopy (sb.data.drop sb.offset.toNat) p).drop sb.offset.toNat) q,
           sb.offset, sb.uf⟩ := by
        unfold Seekbuffer.Write
        rw [if_neg houter]
      rw [hWo, hWq]
      congr 1
      have htk : (sb.data.take sb.offset.toNat
          ++ goCopy (sb.data.drop sb.offset.toNat) p).take sb.offset.toNat
          = sb.data.take sb.offset.toNat := by
        exact List.take_left' (by rw [List.length_take]; omega)
      have hdr : (sb.data.take sb.offset.toNat
          ++ goCopy (sb.data.drop sb.offset.toNat) p).drop sb.offset.toNat
          = goCopy (sb.data.drop sb.offset.toNat) p := by
        exact List.drop_left' (by rw [List.length_take]; omega)
      rw [htk, hdr, goCopy_goCopy _ _ _ hqp]

theorem C10_seekbuffer_offsets_witness :
    ((Seekbuffer.Write ⟨[1, 2, 3, 4], 1, ⟨"u", [], none⟩⟩ [9, 9]).1).offset
      = (1 : Int) ∧
    ((Seekbuffer.Read ⟨[1, 2, 3, 4], 1, ⟨"u", [], none⟩⟩ [0, 0]).1).offset
      = (1 : Int)
        + (((Seekbuffer.Read ⟨[1, 2, 3, 4], 1, ⟨"u", [], none⟩⟩
            [0, 0]).2.2.1 : Nat) : Int) ∧
    ((((Seekbuffer.Write ⟨[1, 2, 3, 4], 1, ⟨"u", [], none⟩⟩ [9, 9]).1).data.drop
        (1 : Int).toNat).take 2 = [9, 9]) ∧
    ((Seekbuffer.Write ⟨[1, 2, 3, 4], 1, ⟨"u", [], none⟩⟩ [9, 9]).1.Write
        [7, 7]).1
      = (Seekbuffer.Write ⟨[1, 2, 3, 4], 1, ⟨"u", [], none⟩⟩ [7, 7]).1 := by
  have h := C10_seekbuffer_offsets ⟨[1, 2, 3, 4], 1, ⟨"u", [], none⟩⟩
    [9, 9] [7, 7] (by decide)
  exact ⟨h.1, h.2.1 [0, 0], h.2.2.1, h.2.2.2 rfl⟩

end Absfs
